import Mathlib

/-!
Shallow embedding of the loom-js DAppChain client (src/client.ts): the
transaction-commit pipeline (middleware chaining, nonce-conflict retry,
two-phase result interpretation), the read/write channel routing, the
subscription lifecycle, and the push-notification event translation.
Optional JavaScript values are modelled with Option, thrown Error values
with an explicit error type, and machine effects (requests transmitted,
events emitted, channels closed) with explicit result components.
-/

namespace Loom

/-- Byte sequences (JavaScript Uint8Array values). -/
abbrev Bytes := List Nat

/-- A thrown JavaScript Error value, identified by its message. Every value the
client throws or inspects is an Error instance, so the message determines it. -/
structure JsError where
  message : String
deriving DecidableEq, Repr

/-- INVALID_TX_NONCE_ERROR from src/client.ts. -/
def INVALID_TX_NONCE_ERROR : String := "Invalid tx nonce"

/-- isInvalidTxNonceError from src/client.ts: the value is an Error whose message
equals INVALID_TX_NONCE_ERROR (all modelled thrown values are Error instances). -/
def isInvalidTxNonceError (err : JsError) : Bool :=
  err.message == INVALID_TX_NONCE_ERROR

/-- ITxHandlerResult from src/client.ts: all three fields are optional on the wire. -/
structure ITxHandlerResult where
  code : Option Int
  log : Option String
  data : Option String
deriving DecidableEq, Repr

/-- IBroadcastTxCommitResult from src/client.ts. -/
structure IBroadcastTxCommitResult where
  check_tx : ITxHandlerResult
  deliver_tx : ITxHandlerResult
  hash : String
  height : String
deriving DecidableEq, Repr

/-- JavaScript truthiness of an optional string: absent and empty are falsy. -/
def strTruthy : Option String → Bool
  | none => false
  | some s => s != ""

/-- JavaScript `x || 0` applied to an optional number field. -/
def codeOrZero (code : Option Int) : Int := code.getD 0

/-- JavaScript template interpolation of an optional number field
(an absent field prints as "undefined"). -/
def jsNumToString : Option Int → String
  | none => "undefined"
  | some n => toString n

/-- Modelled from the spec: the crypto-utils wire codec (not under src/). The spec
only requires that binary payloads travel as strings through an encode/decode
pair, so bytes are mapped to their code points; no claim depends on the
concrete base64 alphabet. -/
def Uint8ArrayToB64 (b : Bytes) : String := String.mk (b.map Char.ofNat)

/-- Modelled from the spec: the inverse wire decode (crypto-utils, not under src/). -/
def B64ToUint8Array (s : String) : Bytes := s.toList.map Char.toNat

/-- ITxMiddlewareHandler from src/client.ts: transforms transaction bytes. -/
structure ITxMiddlewareHandler where
  Handle : Bytes → Bytes

/-- The middleware loop in _commitTxAsync:
for (let i = 0; i < middleware.length; i++) txBytes = middleware[i].Handle(txBytes). -/
def applyMiddleware (middleware : List ITxMiddlewareHandler) (txBytes : Bytes) : Bytes :=
  (List.range middleware.length).foldl
    (fun b i => ((middleware.getD i ⟨id⟩).Handle) b) txBytes

/-- A request transmitted on an RPC channel: method name and encoded parameters. -/
structure RpcRequest where
  method : String
  params : List String
deriving DecidableEq, Repr

/-- The TypeError raised by reading result.deliver_tx when result is undefined. -/
def typeErrorDeliverTx : JsError :=
  ⟨"Cannot read properties of undefined (reading deliver_tx)"⟩

/-- The result-interpretation tail of _commitTxAsync from src/client.ts, verbatim:
the error throws inside the if (result) block, then the read of
result.deliver_tx.data, which sits outside that guard, so an absent result
raises a TypeError there. -/
def interpretBroadcastTxResult (result : Option IBroadcastTxCommitResult) :
    Except JsError (Option Bytes) :=
  match result with
  | some r =>
    if codeOrZero r.check_tx.code ≠ 0 then
      if strTruthy r.check_tx.log = false then
        .error ⟨"Failed to commit Tx: " ++ jsNumToString r.check_tx.code⟩
      else if r.check_tx.code = some 1 ∧
          r.check_tx.log = some "sequence number does not match" then
        .error ⟨INVALID_TX_NONCE_ERROR⟩
      else
        .error ⟨"Failed to commit Tx: " ++ r.check_tx.log.getD ""⟩
    else if codeOrZero r.deliver_tx.code ≠ 0 then
      if strTruthy r.deliver_tx.log = false then
        .error ⟨"Failed to commit Tx: " ++ jsNumToString r.deliver_tx.code⟩
      else
        .error ⟨"Failed to commit Tx: " ++ r.deliver_tx.log.getD ""⟩
    else if strTruthy r.deliver_tx.data then
      .ok (some (B64ToUint8Array (r.deliver_tx.data.getD "")))
    else
      .ok none
  | none => .error typeErrorDeliverTx

/-- _commitTxAsync from src/client.ts: applies the middleware, transmits the
broadcast_tx_commit request on the write channel (the send argument models the
channel answer), and interprets the two-phase result. Returns the attempt
outcome together with the requests transmitted on the write channel. -/
def _commitTxAsync (send : RpcRequest → Option IBroadcastTxCommitResult)
    (txSerialized : Bytes) (middleware : List ITxMiddlewareHandler) :
    Except JsError (Option Bytes) × List RpcRequest :=
  let txBytes := applyMiddleware middleware txSerialized
  let req : RpcRequest := ⟨"broadcast_tx_commit", [Uint8ArrayToB64 txBytes]⟩
  (interpretBroadcastTxResult (send req), [req])

/-- The retry.OperationOptions fields the client sets. -/
structure OperationOptions where
  retries : Nat
  minTimeout : Nat
  maxTimeout : Nat
  randomize : Bool
deriving DecidableEq, Repr

/-- nonceRetryStrategy from src/client.ts: 5 retries, 500 ms minimum backoff,
5000 ms maximum backoff, jitter on. -/
def nonceRetryStrategy : OperationOptions :=
  { retries := 5, minTimeout := 500, maxTimeout := 5000, randomize := true }

/-- The node-retry operation loop driving commitTxAsync (spec section 4.3):
attempts are numbered from 1; a failure whose message is the nonce-conflict
message consumes one remaining retry and reattempts, any other failure stops
the operation and rejects. Backoff only delays the next attempt, so it does
not appear in the state. The channel may answer differently on each attempt,
hence send is indexed by the attempt number. The second component of the
result is the total number of attempts performed. -/
def commitTxLoop (send : Nat → RpcRequest → Option IBroadcastTxCommitResult)
    (txSerialized : Bytes) (middleware : List ITxMiddlewareHandler) :
    Nat → Nat → Except JsError (Option Bytes) × Nat
  | remaining, attemptNo =>
    match (_commitTxAsync (send attemptNo) txSerialized middleware).1 with
    | .ok v => (.ok v, attemptNo)
    | .error err =>
      if isInvalidTxNonceError err then
        match remaining with
        | 0 => (.error err, attemptNo)
        | r + 1 => commitTxLoop send txSerialized middleware r (attemptNo + 1)
      else
        (.error err, attemptNo)

/-- commitTxAsync from src/client.ts: wraps the single attempt in the retry
operation built from the given strategy. First attempt is attempt 1. -/
def commitTxAsync (send : Nat → RpcRequest → Option IBroadcastTxCommitResult)
    (txSerialized : Bytes) (middleware : List ITxMiddlewareHandler)
    (strategy : OperationOptions) : Except JsError (Option Bytes) × Nat :=
  commitTxLoop send txSerialized middleware strategy.retries 1

/-- The composition stated by the spec: the first middleware is applied to the
input bytes, each following middleware is fed the previous output, and the
final output is what is transmitted. Spec-side definition for claim C4. -/
def chainedApplication : List ITxMiddlewareHandler → Bytes → Bytes
  | [], b => b
  | m :: ms, b => chainedApplication ms (m.Handle b)

/-- The index-based middleware loop computes the chained application. -/
theorem applyMiddleware_eq_chained (mw : List ITxMiddlewareHandler) (b : Bytes) :
    applyMiddleware mw b = chainedApplication mw b := by
  induction mw generalizing b with
  | nil => rfl
  | cons m ms ih =>
    show (List.range (ms.length + 1)).foldl
        (fun b i => (((m :: ms).getD i ⟨id⟩).Handle) b) b = _
    rw [List.range_succ_eq_map, List.foldl_cons, List.foldl_map]
    simpa [applyMiddleware] using ih (m.Handle b)

/-- C4: for every middleware list M1..Mn and every input transaction bytes b, the
single request a commit attempt transmits on the write channel carries the
chained application Mn(...(M1(b))). -/
theorem commit_transmits_chained_middleware
    (send : RpcRequest → Option IBroadcastTxCommitResult)
    (mw : List ITxMiddlewareHandler) (b : Bytes) :
    (_commitTxAsync send b mw).2 =
      [⟨"broadcast_tx_commit", [Uint8ArrayToB64 (chainedApplication mw b)]⟩] := by
  simp [_commitTxAsync, applyMiddleware_eq_chained]

/-- The ordered interpretation rules exactly as claim C2 states them, with
"absent" read strictly as the optional field being missing. Spec-side
definition, for comparison against the code. -/
def claimedInterpretation (r : IBroadcastTxCommitResult) : Except JsError (Option Bytes) :=
  if codeOrZero r.check_tx.code ≠ 0 then
    if r.check_tx.log = none then
      .error ⟨"Failed to commit Tx: " ++ jsNumToString r.check_tx.code⟩
    else if r.check_tx.code = some 1 ∧
        r.check_tx.log = some "sequence number does not match" then
      .error ⟨INVALID_TX_NONCE_ERROR⟩
    else
      .error ⟨"Failed to commit Tx: " ++ r.check_tx.log.getD ""⟩
  else if codeOrZero r.deliver_tx.code ≠ 0 then
    if r.deliver_tx.log = none then
      .error ⟨"Failed to commit Tx: " ++ jsNumToString r.deliver_tx.code⟩
    else
      .error ⟨"Failed to commit Tx: " ++ r.deliver_tx.log.getD ""⟩
  else if r.deliver_tx.data = none then
    .ok none
  else
    .ok (some (B64ToUint8Array (r.deliver_tx.data.getD "")))

/-- Claim C2 amended: the same ordered rules with "absent" replaced by "absent or
empty" for check.log, deliver.log and deliver.data, matching the JavaScript
truthiness tests of the code. Spec-side definition. -/
def amendedInterpretation (r : IBroadcastTxCommitResult) : Except JsError (Option Bytes) :=
  if codeOrZero r.check_tx.code ≠ 0 then
    if r.check_tx.log = none ∨ r.check_tx.log = some "" then
      .error ⟨"Failed to commit Tx: " ++ jsNumToString r.check_tx.code⟩
    else if r.check_tx.code = some 1 ∧
        r.check_tx.log = some "sequence number does not match" then
      .error ⟨INVALID_TX_NONCE_ERROR⟩
    else
      .error ⟨"Failed to commit Tx: " ++ r.check_tx.log.getD ""⟩
  else if codeOrZero r.deliver_tx.code ≠ 0 then
    if r.deliver_tx.log = none ∨ r.deliver_tx.log = some "" then
      .error ⟨"Failed to commit Tx: " ++ jsNumToString r.deliver_tx.code⟩
    else
      .error ⟨"Failed to commit Tx: " ++ r.deliver_tx.log.getD ""⟩
  else if r.deliver_tx.data = none ∨ r.deliver_tx.data = some "" then
    .ok none
  else
    .ok (some (B64ToUint8Array (r.deliver_tx.data.getD "")))

/-- Absence-or-emptiness of an optional string is exactly JavaScript falsiness. -/
theorem strTruthy_false_iff (l : Option String) :
    strTruthy l = false ↔ (l = none ∨ l = some "") := by
  cases l with
  | none => simp [strTruthy]
  | some s => simp [strTruthy]

/-- C2 (amended): a commit attempt whose broadcast answer is the two-phase result
r resolves or rejects exactly as the ordered rules prescribe, with "absent"
read as "absent or empty" for check.log, deliver.log and deliver.data. -/
theorem commit_attempt_interprets_result (r : IBroadcastTxCommitResult)
    (tx : Bytes) (mw : List ITxMiddlewareHandler) :
    (_commitTxAsync (fun _ => some r) tx mw).1 = amendedInterpretation r := by
  show interpretBroadcastTxResult (some r) = amendedInterpretation r
  simp only [interpretBroadcastTxResult, amendedInterpretation]
  by_cases h1 : codeOrZero r.check_tx.code ≠ 0
  · simp only [if_pos h1]
    by_cases h2 : strTruthy r.check_tx.log = false
    · rw [if_pos h2, if_pos ((strTruthy_false_iff _).1 h2)]
    · rw [if_neg h2, if_neg (fun hc => h2 ((strTruthy_false_iff _).2 hc))]
  · simp only [if_neg h1]
    by_cases h3 : codeOrZero r.deliver_tx.code ≠ 0
    · simp only [if_pos h3]
      by_cases h4 : strTruthy r.deliver_tx.log = false
      · rw [if_pos h4, if_pos ((strTruthy_false_iff _).1 h4)]
      · rw [if_neg h4, if_neg (fun hc => h4 ((strTruthy_false_iff _).2 hc))]
    · simp only [if_neg h3]
      by_cases h5 : strTruthy r.deliver_tx.data = false
      · rw [if_neg (fun hb => by simp [hb] at h5), if_pos ((strTruthy_false_iff _).1 h5)]
      · rw [if_pos (by revert h5 ; cases strTruthy r.deliver_tx.data <;> simp),
          if_neg (fun hc => h5 ((strTruthy_false_iff _).2 hc))]

/-- The concrete two-phase result refuting claim C2 as literally stated:
check.code 2 with check.log present but empty. -/
def emptyLogCheckFailure : IBroadcastTxCommitResult :=
  ⟨⟨some 2, some "", none⟩, ⟨some 0, none, none⟩, "", ""⟩

/-- C2 counterexample: on a check failure whose log is present but empty, the code
rejects with the error carrying check.code, while the rules as literally
stated (log absent) reject with the error carrying check.log; the two differ. -/
theorem commit_interpretation_counterexample :
    (_commitTxAsync (fun _ => some emptyLogCheckFailure) [] []).1 =
        .error ⟨"Failed to commit Tx: 2"⟩ ∧
      claimedInterpretation emptyLogCheckFailure = .error ⟨"Failed to commit Tx: "⟩ ∧
      (_commitTxAsync (fun _ => some emptyLogCheckFailure) [] []).1 ≠
        claimedInterpretation emptyLogCheckFailure := by
  refine ⟨rfl, rfl, fun h => ?_⟩
  rw [show (_commitTxAsync (fun _ => some emptyLogCheckFailure) [] []).1 =
      (.error ⟨"Failed to commit Tx: 2"⟩ : Except JsError (Option Bytes)) from rfl,
    show claimedInterpretation emptyLogCheckFailure =
      (.error ⟨"Failed to commit Tx: "⟩ : Except JsError (Option Bytes)) from rfl] at h
  exact absurd (congrArg (fun e => match e with
    | Except.error j => j.message
    | Except.ok _ => "") h) (by decide)

/-- The nonce-conflict check answer: code 1 with the sequence-mismatch log. -/
def checkPhaseNonceConflict (r : IBroadcastTxCommitResult) : Prop :=
  r.check_tx.code = some 1 ∧ r.check_tx.log = some "sequence number does not match"

/-- An attempt whose broadcast answer carries the nonce-conflict check result
rejects with the canonical nonce-conflict error. -/
theorem attempt_nonce_conflict (send : RpcRequest → Option IBroadcastTxCommitResult)
    (tx : Bytes) (mw : List ITxMiddlewareHandler)
    (h : ∀ req, ∃ r, send req = some r ∧ checkPhaseNonceConflict r) :
    (_commitTxAsync send tx mw).1 = .error ⟨INVALID_TX_NONCE_ERROR⟩ := by
  obtain ⟨r, hsend, hcode, hlog⟩ := h _
  show interpretBroadcastTxResult (send _) = _
  rw [hsend]
  simp [interpretBroadcastTxResult, hcode, hlog, codeOrZero, strTruthy]

/-- When every attempt answers with the nonce-conflict check result, the retry
loop consumes all remaining retries and rejects with the nonce-conflict error
after attemptNo + remaining total attempts. -/
theorem commitTxLoop_all_nonce_conflict
    (send : Nat → RpcRequest → Option IBroadcastTxCommitResult)
    (tx : Bytes) (mw : List ITxMiddlewareHandler)
    (h : ∀ n req, ∃ r, send n req = some r ∧ checkPhaseNonceConflict r) :
    ∀ remaining attemptNo, commitTxLoop send tx mw remaining attemptNo =
      (.error ⟨INVALID_TX_NONCE_ERROR⟩, attemptNo + remaining) := by
  intro remaining
  induction remaining with
  | zero =>
    intro a
    rw [commitTxLoop, attempt_nonce_conflict (send a) tx mw (h a)]
    simp [isInvalidTxNonceError, INVALID_TX_NONCE_ERROR]
  | succ k ih =>
    intro a
    rw [commitTxLoop, attempt_nonce_conflict (send a) tx mw (h a)]
    simp only [isInvalidTxNonceError, INVALID_TX_NONCE_ERROR, beq_self_eq_true, if_true]
    rw [ih (a + 1)]
    exact congrArg _ (by omega)

/-- C1: when every attempt answers check code 1 with log "sequence number does
not match", commitTxAsync under the default nonceRetryStrategy (5 retries,
500 ms minimum backoff, 5000 ms maximum backoff, jitter on) performs exactly
retries + 1 = 6 total attempts and finally rejects with the canonical
nonce-conflict error. -/
theorem commit_nonce_conflict_exhausts_retries
    (send : Nat → RpcRequest → Option IBroadcastTxCommitResult)
    (tx : Bytes) (mw : List ITxMiddlewareHandler)
    (h : ∀ n req, ∃ r, send n req = some r ∧ checkPhaseNonceConflict r) :
    commitTxAsync send tx mw nonceRetryStrategy =
        (.error ⟨INVALID_TX_NONCE_ERROR⟩, nonceRetryStrategy.retries + 1) ∧
      nonceRetryStrategy =
        { retries := 5, minTimeout := 500, maxTimeout := 5000, randomize := true } ∧
      nonceRetryStrategy.retries + 1 = 6 := by
  refine ⟨?_, rfl, rfl⟩
  unfold commitTxAsync
  rw [commitTxLoop_all_nonce_conflict send tx mw h]
  exact congrArg _ (by omega)

/-- A channel that answers every attempt with the nonce-conflict check result. -/
def allNonceConflictSend : Nat → RpcRequest → Option IBroadcastTxCommitResult :=
  fun _ _ => some ⟨⟨some 1, some "sequence number does not match", none⟩,
    ⟨none, none, none⟩, "", ""⟩

/-- C1 witness: under the always-nonce-conflict channel the hypothesis holds and
commitTxAsync rejects with the nonce-conflict error after 6 attempts. -/
theorem commit_nonce_conflict_exhausts_retries_witness :
    (∀ n req, ∃ r, allNonceConflictSend n req = some r ∧ checkPhaseNonceConflict r) ∧
      commitTxAsync allNonceConflictSend [] [] nonceRetryStrategy =
        (.error ⟨INVALID_TX_NONCE_ERROR⟩, nonceRetryStrategy.retries + 1) :=
  ⟨fun _ _ => ⟨_, rfl, rfl, rfl⟩,
    (commit_nonce_conflict_exhausts_retries allNonceConflictSend [] []
      (fun _ _ => ⟨_, rfl, rfl, rfl⟩)).1⟩

/-- C3: an attempt failing with any error other than the nonce-conflict error
rejects commitTxAsync immediately with that same error after a single attempt
(zero retries performed), whatever the retry strategy. -/
theorem commit_other_error_no_retry
    (send : Nat → RpcRequest → Option IBroadcastTxCommitResult)
    (tx : Bytes) (mw : List ITxMiddlewareHandler) (strategy : OperationOptions)
    (err : JsError)
    (hfail : (_commitTxAsync (send 1) tx mw).1 = .error err)
    (hother : isInvalidTxNonceError err = false) :
    commitTxAsync send tx mw strategy = (.error err, 1) := by
  unfold commitTxAsync
  rw [commitTxLoop, hfail]
  simp [hother]

/-- A channel whose deliver phase fails with code 5 and log "deliver failed". -/
def deliverFailSend : Nat → RpcRequest → Option IBroadcastTxCommitResult :=
  fun _ _ => some ⟨⟨some 0, none, none⟩, ⟨some 5, some "deliver failed", none⟩, "", ""⟩

/-- C3 witness: a deliver-phase failure (code 5) rejects after exactly one
attempt with the deliver error, under the default strategy. -/
theorem commit_other_error_no_retry_witness :
    (_commitTxAsync (deliverFailSend 1) [] []).1 =
        .error ⟨"Failed to commit Tx: deliver failed"⟩ ∧
      isInvalidTxNonceError ⟨"Failed to commit Tx: deliver failed"⟩ = false ∧
      commitTxAsync deliverFailSend [] [] nonceRetryStrategy =
        (.error ⟨"Failed to commit Tx: deliver failed"⟩, 1) :=
  ⟨rfl, rfl, commit_other_error_no_retry deliverFailSend [] [] nonceRetryStrategy
    ⟨"Failed to commit Tx: deliver failed"⟩ rfl rfl⟩

/-- C10: when the write channel answers broadcast_tx_commit with an absent
result, the attempt does not resolve with no value: the read of
result.deliver_tx outside the if (result) guard raises a TypeError, and
commitTxAsync rejects with it terminally after one attempt, whatever the
strategy. -/
theorem commit_absent_result_type_error
    (tx : Bytes) (mw : List ITxMiddlewareHandler) (strategy : OperationOptions) :
    (_commitTxAsync (fun _ => none) tx mw).1 = .error typeErrorDeliverTx ∧
      isInvalidTxNonceError typeErrorDeliverTx = false ∧
      commitTxAsync (fun _ _ => none) tx mw strategy = (.error typeErrorDeliverTx, 1) := by
  refine ⟨rfl, rfl, ?_⟩
  unfold commitTxAsync
  rw [commitTxLoop]
  simp [interpretBroadcastTxResult, _commitTxAsync, isInvalidTxNonceError,
    typeErrorDeliverTx, INVALID_TX_NONCE_ERROR]

/-- queryAsync from src/client.ts, given the raw string answer of the
read-channel query call: if (result) return B64ToUint8Array(result). -/
def queryAsync (result : Option String) : Option Bytes :=
  if strTruthy result then some (B64ToUint8Array (result.getD "")) else none

/-- C8: queryAsync yields no value exactly when the raw channel result is absent
or empty, and the decoded bytes of the raw result otherwise. -/
theorem query_decodes_or_no_value (result : Option String) :
    (queryAsync result = none ↔ (result = none ∨ result = some "")) ∧
      (∀ s : String, s ≠ "" → queryAsync (some s) = some (B64ToUint8Array s)) := by
  constructor
  · cases result with
    | none => simp [queryAsync, strTruthy]
    | some s =>
      by_cases hs : s = "" <;> simp [queryAsync, strTruthy, hs]
  · intro s hs
    simp [queryAsync, strTruthy, hs]

/-- C8 witness: the empty raw result decodes to no value and a non-empty raw
result to its decoded bytes. -/
theorem query_decodes_or_no_value_witness :
    ((some "" : Option String) = none ∨ (some "" : Option String) = some "") ∧
      queryAsync (some "") = none ∧
      ("AQ" ≠ "") ∧ queryAsync (some "AQ") = some (B64ToUint8Array "AQ") :=
  ⟨Or.inr rfl, (query_decodes_or_no_value (some "")).1.2 (Or.inr rfl),
    by decide, (query_decodes_or_no_value (some "AQ")).2 "AQ" (by decide)⟩

/-- The two RPC channels a Client holds. -/
inductive ChannelKind where
  | write
  | read
deriving DecidableEq, Repr

/-- The Client calls that hit an RPC channel, one constructor per method of
src/client.ts. -/
inductive ClientCall where
  | commitTx
  | query
  | getEvmTxReceipt
  | getEvmTxByHash
  | getEvmCode
  | getEvmLogs
  | newEvmFilter
  | getEvmFilterChanges
  | newBlockEvmFilter
  | newPendingTransactionEvmFilter
  | uninstallEvmFilter
  | getEvmBlockByNumber
  | getEvmBlockByHash
  | evmSubscribe
  | evmUnsubscribe
  | getBlockHeight
  | getNonce
  | getContractAddress
deriving DecidableEq, Repr

/-- The channel each call transmits on in src/client.ts: _commitTxAsync sends on
this._writeClient (line 270); every other method sends on this._readClient,
getNonceAsync included (line 574). -/
def channelOf : ClientCall → ChannelKind
  | .commitTx => .write
  | .query => .read
  | .getEvmTxReceipt => .read
  | .getEvmTxByHash => .read
  | .getEvmCode => .read
  | .getEvmLogs => .read
  | .newEvmFilter => .read
  | .getEvmFilterChanges => .read
  | .newBlockEvmFilter => .read
  | .newPendingTransactionEvmFilter => .read
  | .uninstallEvmFilter => .read
  | .getEvmBlockByNumber => .read
  | .getEvmBlockByHash => .read
  | .evmSubscribe => .read
  | .evmUnsubscribe => .read
  | .getBlockHeight => .read
  | .getNonce => .read
  | .getContractAddress => .read

/-- C6 counterexample: getNonceAsync transmits on the read channel, not on the
write channel the claim names. -/
theorem nonce_routing_counterexample :
    channelOf ClientCall.getNonce = ChannelKind.read ∧
      ChannelKind.read ≠ ChannelKind.write :=
  ⟨rfl, by decide⟩

/-- C6 amended: channel routing is static per call type; commits transmit on the
write channel, and every other call, nonce lookups included, transmits on the
read channel. -/
theorem channel_routing_static (c : ClientCall) :
    channelOf c =
      (if c = ClientCall.commitTx then ChannelKind.write else ChannelKind.read) := by
  cases c <;> rfl

/-- Reference identity of an RPC channel instance. -/
abbrev ChannelId := Nat

/-- The channel references a Client holds after construction. -/
structure ClientChannels where
  writeId : ChannelId
  readId : ChannelId
deriving DecidableEq, Repr

/-- The constructor wiring of src/client.ts: with no read client, or a read
client identical to the write client, the read channel aliases the write
channel; otherwise it is the distinct instance supplied. -/
def mkClientChannels (writeId : ChannelId) (readClient : Option ChannelId) :
    ClientChannels :=
  match readClient with
  | none => ⟨writeId, writeId⟩
  | some r => if r = writeId then ⟨writeId, writeId⟩ else ⟨writeId, r⟩

/-- The observable effect of disconnect: whether all listener registrations were
removed, and the channel instances closed, in order. -/
structure DisconnectEffect where
  listenersRemoved : Bool
  closed : List ChannelId
deriving DecidableEq, Repr

/-- disconnect from src/client.ts: removeAllListeners, close the write channel,
and close the read channel only when it is a distinct instance. -/
def disconnect (c : ClientChannels) : DisconnectEffect :=
  ⟨true, [c.writeId] ++ (if c.readId ≠ c.writeId then [c.readId] else [])⟩

/-- C7: disconnect removes all consumer registrations, closes the write channel,
and closes the read channel only when distinct, so a client whose two channel
roles alias one instance closes that instance exactly once. -/
theorem disconnect_closes_each_channel_once (w : ChannelId) (r : Option ChannelId) :
    (disconnect (mkClientChannels w r)).listenersRemoved = true ∧
      ((mkClientChannels w r).readId = (mkClientChannels w r).writeId →
        (disconnect (mkClientChannels w r)).closed = [w]) ∧
      ((mkClientChannels w r).readId ≠ (mkClientChannels w r).writeId →
        (disconnect (mkClientChannels w r)).closed = [w, (mkClientChannels w r).readId]) ∧
      ((disconnect (mkClientChannels w r)).closed).count w = 1 := by
  have hcases : mkClientChannels w r = ⟨w, w⟩ ∨
      ∃ rv, rv ≠ w ∧ mkClientChannels w r = ⟨w, rv⟩ := by
    cases r with
    | none => exact Or.inl rfl
    | some rv =>
      by_cases hrv : rv = w
      · exact Or.inl (by simp [mkClientChannels, hrv])
      · exact Or.inr ⟨rv, hrv, by simp [mkClientChannels, hrv]⟩
  rcases hcases with hck | ⟨rv, hrv, hck⟩ <;> rw [hck]
  · exact ⟨rfl, fun _ => by simp [disconnect], fun hdiff => absurd rfl hdiff,
      by simp [disconnect]⟩
  · refine ⟨rfl, fun hsame => absurd hsame hrv, fun _ => by simp [disconnect, hrv], ?_⟩
    simp [disconnect, hrv, List.count_cons, List.count_nil, Ne.symm hrv]

/-- C7 witness: a client built from one endpoint aliases both roles to that
channel, and disconnect closes it exactly once. -/
theorem disconnect_closes_each_channel_once_witness :
    (mkClientChannels 7 (some 7)).readId = (mkClientChannels 7 (some 7)).writeId ∧
      (disconnect (mkClientChannels 7 (some 7))).closed = [7] :=
  ⟨rfl, (disconnect_closes_each_channel_once 7 (some 7)).2.1 rfl⟩

/-- ClientEvent from src/client.ts: the string-valued event-kind enum. -/
inductive ClientEvent where
  | Contract
  | Error
  | Connected
  | Disconnected
deriving DecidableEq, Repr

/-- The wire names of the ClientEvent values. -/
def ClientEvent.eventName : ClientEvent → String
  | .Contract => "contractEvent"
  | .Error => "error"
  | .Connected => "connected"
  | .Disconnected => "disconnected"

/-- State of the Client subscription lifecycle: the number of
ClientEvent.Contract listeners registered on the client, the number of
message-notification handlers attached to the read channel, and the tallies of
subscribe (readClient.on) and unsubscribe (readClient.removeListener) calls. -/
structure SubscriptionState where
  contractListeners : Nat
  messageHandlers : Nat
  subscribeCalls : Nat
  unsubscribeCalls : Nat
deriving DecidableEq, Repr

/-- A fresh Client: no Contract listeners, no handler attached, no calls made. -/
def initialSubscriptionState : SubscriptionState := ⟨0, 0, 0, 0⟩

/-- The newListener handler installed by the Client constructor. The EventEmitter
fires it before the new listener is registered, so listenerCount still reports
the old count: on a Contract registration at count 0 the message handler is
attached to the read channel. -/
def onNewListener (s : SubscriptionState) (ev : String) : SubscriptionState :=
  if ev = ClientEvent.Contract.eventName ∧ s.contractListeners = 0 then
    { s with messageHandlers := s.messageHandlers + 1,
             subscribeCalls := s.subscribeCalls + 1 }
  else s

/-- The removeListener handler installed by the Client constructor. The
EventEmitter fires it after the listener is removed: when the last Contract
listener goes, the message handler is detached from the read channel. -/
def onRemoveListener (s : SubscriptionState) (ev : String) : SubscriptionState :=
  if ev = ClientEvent.Contract.eventName ∧ s.contractListeners = 0 then
    { s with messageHandlers := s.messageHandlers - 1,
             unsubscribeCalls := s.unsubscribeCalls + 1 }
  else s

/-- client.on(ev, listener): the EventEmitter emits newListener first, then
registers the listener. Only Contract listeners bear on this state. -/
def clientOn (s : SubscriptionState) (ev : String) : SubscriptionState :=
  let s := onNewListener s ev
  if ev = ClientEvent.Contract.eventName then
    { s with contractListeners := s.contractListeners + 1 }
  else s

/-- client.removeListener(ev, listener): when such a listener is registered, the
EventEmitter removes it and then emits removeListener; with none registered it
is a no-op and emits nothing. -/
def clientRemoveListener (s : SubscriptionState) (ev : String) : SubscriptionState :=
  if ev = ClientEvent.Contract.eventName then
    if s.contractListeners = 0 then s
    else onRemoveListener { s with contractListeners := s.contractListeners - 1 } ev
  else s

/-- A consumer-side registration action on the Client. -/
inductive ListenerOp where
  | register (ev : String)
  | unregister (ev : String)
deriving DecidableEq, Repr

/-- Runs a sequence of registration actions against the Client. -/
def runListenerOps (ops : List ListenerOp) (s : SubscriptionState) : SubscriptionState :=
  ops.foldl (fun s op =>
    match op with
    | .register ev => clientOn s ev
    | .unregister ev => clientRemoveListener s ev) s

/-- The message handler is attached exactly when a Contract listener exists. -/
def subscriptionInvariant (s : SubscriptionState) : Prop :=
  s.messageHandlers = (if s.contractListeners = 0 then 0 else 1)

/-- clientOn preserves the attachment invariant. -/
theorem clientOn_invariant (s : SubscriptionState) (ev : String)
    (h : subscriptionInvariant s) : subscriptionInvariant (clientOn s ev) := by
  obtain ⟨cl, mh, sc, uc⟩ := s
  simp only [subscriptionInvariant] at h ⊢
  by_cases hev : ev = ClientEvent.Contract.eventName
  · by_cases hz : cl = 0
    · simp [clientOn, onNewListener, hev, hz] at h ⊢
      omega
    · simp [clientOn, onNewListener, hev, hz] at h ⊢
      omega
  · simp only [clientOn, onNewListener] at h ⊢
    simp [hev]
    exact h

/-- clientRemoveListener preserves the attachment invariant. -/
theorem clientRemoveListener_invariant (s : SubscriptionState) (ev : String)
    (h : subscriptionInvariant s) : subscriptionInvariant (clientRemoveListener s ev) := by
  obtain ⟨cl, mh, sc, uc⟩ := s
  simp only [subscriptionInvariant] at h ⊢
  by_cases hev : ev = ClientEvent.Contract.eventName
  · by_cases hz : cl = 0
    · simp [clientRemoveListener, onRemoveListener, hev, hz] at h ⊢
      omega
    · by_cases h1 : cl - 1 = 0
      · simp [clientRemoveListener, onRemoveListener, hev, hz, h1] at h ⊢
        omega
      · simp [clientRemoveListener, onRemoveListener, hev, hz, h1] at h ⊢
        omega
  · simp [clientRemoveListener, hev]
    exact h

/-- Every run from the fresh Client state keeps the attachment invariant. -/
theorem runListenerOps_invariant (ops : List ListenerOp) :
    subscriptionInvariant (runListenerOps ops initialSubscriptionState) := by
  have general : ∀ (l : List ListenerOp) (s : SubscriptionState),
      subscriptionInvariant s → subscriptionInvariant (runListenerOps l s) := by
    intro l
    induction l with
    | nil => exact fun s h => h
    | cons op rest ih =>
      intro s h
      cases op with
      | register ev => exact ih _ (clientOn_invariant s ev h)
      | unregister ev => exact ih _ (clientRemoveListener_invariant s ev h)
  exact general ops initialSubscriptionState (by simp [subscriptionInvariant,
    initialSubscriptionState])

/-- C5: the read-channel message handler is attached iff at least one Contract
listener is registered; a registration subscribes exactly on the 0-to-1
transition and a removal unsubscribes exactly on the 1-to-0 transition; and
registering two Contract consumers then unregistering both produces exactly
one subscribe call and one unsubscribe call. -/
theorem contract_listener_subscription_lifecycle :
    (∀ ops : List ListenerOp,
        (runListenerOps ops initialSubscriptionState).messageHandlers =
          (if (runListenerOps ops initialSubscriptionState).contractListeners = 0
            then 0 else 1)) ∧
      (∀ s : SubscriptionState,
        (clientOn s ClientEvent.Contract.eventName).subscribeCalls =
          s.subscribeCalls + (if s.contractListeners = 0 then 1 else 0)) ∧
      (∀ s : SubscriptionState,
        (clientRemoveListener s ClientEvent.Contract.eventName).unsubscribeCalls =
          s.unsubscribeCalls + (if s.contractListeners = 1 then 1 else 0)) ∧
      runListenerOps
        [.register ClientEvent.Contract.eventName,
         .register ClientEvent.Contract.eventName,
         .unregister ClientEvent.Contract.eventName,
         .unregister ClientEvent.Contract.eventName]
        initialSubscriptionState = ⟨0, 0, 1, 1⟩ := by
  refine ⟨runListenerOps_invariant, fun s => ?_, fun s => ?_, rfl⟩
  · unfold clientOn onNewListener
    by_cases hz : s.contractListeners = 0
    · simp [hz]
    · simp [hz]
  · unfold clientRemoveListener onRemoveListener
    by_cases hz : s.contractListeners = 0
    · have : s.contractListeners ≠ 1 := by omega
      simp [hz, this]
    · by_cases h1 : s.contractListeners = 1
      · simp [hz, h1]
      · have : ¬s.contractListeners - 1 = 0 := by omega
        simp [hz, h1, this]

/-- LocalAddress (address module, outside the modelled core): raw address bytes. -/
structure LocalAddress where
  bytes : Bytes
deriving DecidableEq, Repr

/-- Address (address module, outside the modelled core): chain id plus local
address; only the record shape matters to the claims. -/
structure Address where
  chainId : String
  localAddress : LocalAddress
deriving DecidableEq, Repr

/-- Modelled from the spec: the address piece of the push-notification result
payload, section 6: chain_id plus wire-encoded local bytes (the ws rpc channel
is outside src/). -/
structure RawEventAddress where
  chain_id : String
  localB64 : String
deriving DecidableEq, Repr

/-- Modelled from the spec: the result payload of a push notification, section 6:
address, caller, block_height, encoded_body (optional), tx_hash, topics. -/
structure IJSONRPCEventResult where
  address : RawEventAddress
  caller : RawEventAddress
  block_height : String
  encoded_body : Option String
  tx_hash : String
  topics : List String
deriving DecidableEq, Repr

/-- Modelled from the spec: an IJSONRPCEvent push notification, section 6:
an id with an optional error payload and an optional result payload. -/
structure IJSONRPCEvent where
  id : String
  error : Option JsError
  result : Option IJSONRPCEventResult
deriving DecidableEq, Repr

/-- IChainEventArgs from src/client.ts. -/
structure IChainEventArgs where
  id : String
  kind : ClientEvent
  url : String
  contractAddress : Address
  callerAddress : Address
  blockHeight : String
  data : Bytes
  transactionHash : String
  transactionHashBytes : Bytes
  topics : List String
deriving DecidableEq, Repr

/-- IClientErrorEventArgs from src/client.ts. -/
structure IClientErrorEventArgs where
  kind : ClientEvent
  url : String
  error : Option JsError
deriving DecidableEq, Repr

/-- An event emitted by the Client to its consumers. -/
inductive EmittedEvent where
  | errorEvent (args : IClientErrorEventArgs)
  | contractEvent (args : IChainEventArgs)
deriving DecidableEq, Repr

/-- _emitContractEvent from src/client.ts: an error payload emits one Error
event; otherwise a result payload is decoded into one Contract event
(encoded_body falls back to the "0x0" sentinel when falsy); otherwise nothing
is emitted. Returns the list of emissions. -/
def _emitContractEvent (url : String) (event : IJSONRPCEvent) : List EmittedEvent :=
  match event.error with
  | some error => [.errorEvent ⟨ClientEvent.Error, url, some error⟩]
  | none =>
    match event.result with
    | some result =>
      [.contractEvent
        ⟨event.id, ClientEvent.Contract, url,
          ⟨result.address.chain_id, ⟨B64ToUint8Array result.address.localB64⟩⟩,
          ⟨result.caller.chain_id, ⟨B64ToUint8Array result.caller.localB64⟩⟩,
          result.block_height,
          B64ToUint8Array
            (if strTruthy result.encoded_body then result.encoded_body.getD "" else "0x0"),
          result.tx_hash,
          B64ToUint8Array result.tx_hash,
          result.topics⟩]
    | none => []

/-- The number of Contract events in a list of emissions. -/
def countContractEvents (l : List EmittedEvent) : Nat :=
  (l.filter fun e =>
    match e with
    | .contractEvent _ => true
    | .errorEvent _ => false).length

/-- A well-formed result payload used by the C9 statements. -/
def sampleEventResult : IJSONRPCEventResult :=
  ⟨⟨"default", "abc"⟩, ⟨"default", "de"⟩, "7", some "body", "hash", ["topicA"]⟩

/-- A notification carrying both an error payload and a result payload. -/
def notificationWithBoth : IJSONRPCEvent := ⟨"1", some ⟨"boom"⟩, some sampleEventResult⟩

/-- C9 counterexample: a notification carrying both an error payload and a result
payload emits only the Error event and no Contract event, contrary to the
claim that each result-carrying notification emits exactly one Contract
event. -/
theorem notification_with_both_payloads_counterexample :
    _emitContractEvent "u" notificationWithBoth =
        [.errorEvent ⟨ClientEvent.Error, "u", some ⟨"boom"⟩⟩] ∧
      countContractEvents (_emitContractEvent "u" notificationWithBoth) = 0 :=
  ⟨rfl, rfl⟩

/-- C9 amended: a notification carrying an error payload emits exactly one Error
event with the url and the cause; one carrying a result payload and no error
payload emits exactly one Contract event with the decoded fields; one carrying
neither emits nothing. -/
theorem notification_translation (url : String) (event : IJSONRPCEvent) :
    (∀ e, event.error = some e →
        _emitContractEvent url event = [.errorEvent ⟨ClientEvent.Error, url, some e⟩]) ∧
      (∀ r, event.error = none → event.result = some r →
        _emitContractEvent url event =
          [.contractEvent
            ⟨event.id, ClientEvent.Contract, url,
              ⟨r.address.chain_id, ⟨B64ToUint8Array r.address.localB64⟩⟩,
              ⟨r.caller.chain_id, ⟨B64ToUint8Array r.caller.localB64⟩⟩,
              r.block_height,
              B64ToUint8Array
                (if strTruthy r.encoded_body then r.encoded_body.getD "" else "0x0"),
              r.tx_hash,
              B64ToUint8Array r.tx_hash,
              r.topics⟩]) ∧
      (event.error = none → event.result = none → _emitContractEvent url event = []) := by
  refine ⟨fun e he => ?_, fun r he hr => ?_, fun he hr => ?_⟩ <;>
    simp [_emitContractEvent, he] <;> simp [hr]

/-- Concrete notifications for the C9 witness. -/
def notificationWithError : IJSONRPCEvent := ⟨"2", some ⟨"werr"⟩, none⟩

def notificationWithResult : IJSONRPCEvent := ⟨"3", none, some sampleEventResult⟩

def notificationEmpty : IJSONRPCEvent := ⟨"4", none, none⟩

/-- C9 witness: the three amended clauses evaluated at concrete notifications. -/
theorem notification_translation_witness :
    notificationWithError.error = some ⟨"werr"⟩ ∧
      _emitContractEvent "u" notificationWithError =
        [.errorEvent ⟨ClientEvent.Error, "u", some ⟨"werr"⟩⟩] ∧
      _emitContractEvent "u" notificationWithResult =
        [.contractEvent
          ⟨"3", ClientEvent.Contract, "u",
            ⟨"default", ⟨B64ToUint8Array "abc"⟩⟩,
            ⟨"default", ⟨B64ToUint8Array "de"⟩⟩,
            "7",
            B64ToUint8Array
              (if strTruthy sampleEventResult.encoded_body
                then sampleEventResult.encoded_body.getD "" else "0x0"),
            "hash",
            B64ToUint8Array "hash",
            ["topicA"]⟩] ∧
      _emitContractEvent "u" notificationEmpty = [] :=
  ⟨rfl,
    (notification_translation "u" notificationWithError).1 ⟨"werr"⟩ rfl,
    (notification_translation "u" notificationWithResult).2.1 sampleEventResult rfl rfl,
    (notification_translation "u" notificationEmpty).2.2 rfl rfl⟩

end Loom
